import Mathlib

/-!
# Verification of the credential integrity and anchoring subsystem

Shallow embedding of the credential issuance / verification core of the
certificate system: the deterministic SHA-256 fingerprint of credential
fields, the issuance flow of `upload_certificate_page` (dedup pre-check,
persistence, ledger anchoring, anchor-status update), the verification
handler `verify_certificate`, and the ledger client
(`store_certificate_on_blockchain`, `verify_certificate_on_blockchain`,
`get_total_certificates`).

External effects (database commits, Web3 calls) are modelled by explicit
environments: each fallible external operation is an `Except String`
outcome supplied by the environment, and every function additionally
returns the list of external calls it performed, so ordering and
"no call was made" properties are provable.
-/

/-! ## SHA-256 (as used by `hashlib.sha256(...).hexdigest()` on UTF-8 bytes) -/

/-- UTF-8 encoding of one character, as byte values (`Nat < 256`). -/
def utf8EncodeChar (c : Char) : List Nat :=
  let n := c.toNat
  if n < 0x80 then [n]
  else if n < 0x800 then
    [0xC0 ||| (n >>> 6), 0x80 ||| (n &&& 0x3F)]
  else if n < 0x10000 then
    [0xE0 ||| (n >>> 12), 0x80 ||| ((n >>> 6) &&& 0x3F), 0x80 ||| (n &&& 0x3F)]
  else
    [0xF0 ||| (n >>> 18), 0x80 ||| ((n >>> 12) &&& 0x3F),
     0x80 ||| ((n >>> 6) &&& 0x3F), 0x80 ||| (n &&& 0x3F)]

/-- UTF-8 encoding of a string, as a byte list (Python's `s.encode('utf-8')`). -/
def utf8Encode (s : String) : List Nat :=
  (s.data.map utf8EncodeChar).flatten

/-- Truncation to a 32-bit word. -/
def w32 (n : Nat) : Nat := n % 4294967296

/-- 32-bit right rotation. -/
def rotr32 (k x : Nat) : Nat := w32 ((x >>> k) ||| (x <<< (32 - k)))

def shaSigma0 (x : Nat) : Nat := rotr32 7 x ^^^ rotr32 18 x ^^^ (x >>> 3)

def shaSigma1 (x : Nat) : Nat := rotr32 17 x ^^^ rotr32 19 x ^^^ (x >>> 10)

def shaBigSigma0 (x : Nat) : Nat := rotr32 2 x ^^^ rotr32 13 x ^^^ rotr32 22 x

def shaBigSigma1 (x : Nat) : Nat := rotr32 6 x ^^^ rotr32 11 x ^^^ rotr32 25 x

/-- The 64 SHA-256 round constants (decimal values of the FIPS 180-4 table). -/
def shaK : List Nat :=
  [1116352408, 1899447441, 3049323471, 3921009573, 961987163, 1508970993,
   2453635748, 2870763221, 3624381080, 310598401, 607225278, 1426881987,
   1925078388, 2162078206, 2614888103, 3248222580, 3835390401, 4022224774,
   264347078, 604807628, 770255983, 1249150122, 1555081692, 1996064986,
   2554220882, 2821834349, 2952996808, 3210313671, 3336571891, 3584528711,
   113926993, 338241895, 666307205, 773529912, 1294757372, 1396182291,
   1695183700, 1986661051, 2177026350, 2456956037, 2730485921, 2820302411,
   3259730800, 3345764771, 3516065817, 3600352804, 4094571909, 275423344,
   430227734, 506948616, 659060556, 883997877, 958139571, 1322822218,
   1537002063, 1747873779, 1955562222, 2024104815, 2227730452, 2361852424,
   2428436474, 2756734187, 3204031479, 3329325298]

/-- The eight 32-bit working variables of SHA-256. -/
structure Sha256State where
  a : Nat
  b : Nat
  c : Nat
  d : Nat
  e : Nat
  f : Nat
  g : Nat
  h : Nat
deriving Repr, DecidableEq

/-- SHA-256 initial hash value. -/
def shaInit : Sha256State :=
  ⟨1779033703, 3144134277, 1013904242, 2773480762,
   1359893119, 2600822924, 528734635, 1541459225⟩

/-- Group a 64-byte block into big-endian 32-bit words. -/
def blockWords : List Nat → List Nat
  | a :: b :: c :: d :: rest => (((a * 256 + b) * 256 + c) * 256 + d) :: blockWords rest
  | _ => []

/-- Extend the 16 message words by `fuel` further schedule words. -/
def extendWords (w : List Nat) : Nat → List Nat
  | 0 => w
  | k + 1 =>
    let i := w.length
    extendWords
      (w ++ [w32 (shaSigma1 (w.getD (i - 2) 0) + w.getD (i - 7) 0 +
                  shaSigma0 (w.getD (i - 15) 0) + w.getD (i - 16) 0)]) k

/-- The 64-word message schedule of one block. -/
def schedule (block : List Nat) : List Nat := extendWords (blockWords block) 48

/-- One SHA-256 compression round; the pair is (round constant, schedule word). -/
def shaRound (s : Sha256State) (kw : Nat × Nat) : Sha256State :=
  let ch := (s.e &&& s.f) ^^^ ((s.e ^^^ 0xFFFFFFFF) &&& s.g)
  let maj := (s.a &&& s.b) ^^^ (s.a &&& s.c) ^^^ (s.b &&& s.c)
  let t1 := w32 (s.h + shaBigSigma1 s.e + ch + kw.1 + kw.2)
  let t2 := w32 (shaBigSigma0 s.a + maj)
  ⟨w32 (t1 + t2), s.a, s.b, s.c, w32 (s.d + t1), s.e, s.f, s.g⟩

/-- Process one 64-byte block. -/
def processBlock (s : Sha256State) (block : List Nat) : Sha256State :=
  let t := (shaK.zip (schedule block)).foldl shaRound s
  ⟨w32 (s.a + t.a), w32 (s.b + t.b), w32 (s.c + t.c), w32 (s.d + t.d),
   w32 (s.e + t.e), w32 (s.f + t.f), w32 (s.g + t.g), w32 (s.h + t.h)⟩

/-- Big-endian byte rendering of the 64-bit message length in bits. -/
def lengthBytes (bits : Nat) : List Nat :=
  (List.range 8).map (fun i => (bits >>> (8 * (7 - i))) % 256)

/-- SHA-256 padding: `0x80`, zeros to 56 mod 64, then the bit length. -/
def padMessage (msg : List Nat) : List Nat :=
  let len := msg.length
  msg ++ [0x80] ++ List.replicate ((64 + 55 - len % 64) % 64) 0 ++ lengthBytes (8 * len)

/-- Split a byte list into 64-byte blocks (fuel-structured so it reduces). -/
def chunks64Go : Nat → List Nat → List (List Nat)
  | _, [] => []
  | 0, _ :: _ => []
  | fuel + 1, x :: xs => (x :: xs).take 64 :: chunks64Go fuel ((x :: xs).drop 64)

/-- Split a byte list into 64-byte blocks. -/
def chunks64 (l : List Nat) : List (List Nat) := chunks64Go l.length l

/-- The SHA-256 digest of a byte list, as eight 32-bit words. -/
def sha256Words (msg : List Nat) : Sha256State :=
  (chunks64 (padMessage msg)).foldl processBlock shaInit

/-- The lowercase hex digit for a nibble. -/
def hexChar (n : Nat) : Char := "0123456789abcdef".data.getD n '0'

/-- Eight lowercase hex digits of a 32-bit word, most significant first. -/
def wordHex (w : Nat) : List Char :=
  [hexChar ((w >>> 28) % 16), hexChar ((w >>> 24) % 16),
   hexChar ((w >>> 20) % 16), hexChar ((w >>> 16) % 16),
   hexChar ((w >>> 12) % 16), hexChar ((w >>> 8) % 16),
   hexChar ((w >>> 4) % 16), hexChar (w % 16)]

/-- `hashlib.sha256(bytes).hexdigest()`: the 64-character lowercase hex digest. -/
def sha256_hex (msg : List Nat) : String :=
  let s := sha256Words msg
  String.mk (wordHex s.a ++ wordHex s.b ++ wordHex s.c ++ wordHex s.d ++
             wordHex s.e ++ wordHex s.f ++ wordHex s.g ++ wordHex s.h)

/-- Sanity anchor: the embedded SHA-256 agrees with the standard test vector. -/
theorem sha256_hex_abc :
    sha256_hex (utf8Encode "abc") =
      "ba7816bf8f01cfea414140de5dae2223b00361a396177a9cb410ff61f20015ad" := by
  set_option maxRecDepth 10000 in decide

/-! ## Credential fingerprint (`app.py`, `upload_certificate_page`)

`data_string = f"{full_name}|{matric_number}|{year_of_graduation}|{date_of_award}|{honors}|{course_of_study}"`
`certificate_hash = hashlib.sha256(data_string.encode('utf-8')).hexdigest()` -/

/-- The delimiter-joined field string hashed by the issuance handler, in the
source's field order. -/
def data_string (full_name matric_number year_of_graduation date_of_award
    honors course_of_study : String) : String :=
  full_name ++ "|" ++ matric_number ++ "|" ++ year_of_graduation ++ "|" ++
    date_of_award ++ "|" ++ honors ++ "|" ++ course_of_study

/-- The credential fingerprint: SHA-256 hex digest of the UTF-8 bytes of
`data_string`. -/
def certificate_fingerprint (full_name matric_number year_of_graduation
    date_of_award honors course_of_study : String) : String :=
  sha256_hex (utf8Encode (data_string full_name matric_number year_of_graduation
    date_of_award honors course_of_study))

/-! ## Ledger client (`blockchain.py`, `BlockchainManager`) -/

/-- One external call made by the ledger client, in program order. -/
inductive LedgerEvent
  | checkConnection
  | readBalance
  | readNonce
  | estimateGas
  | buildTxn
  | signTxn
  | submitTxn
  | waitConfirm
  | verifyRead
deriving Repr, DecidableEq

/-- The transaction dict built by `build_transaction` (cost fields). -/
structure Txn where
  nonce : Nat
  gas : Nat
  gasPrice : Nat
deriving Repr, DecidableEq

/-- A transaction receipt as returned by `wait_for_transaction_receipt`. -/
structure Receipt where
  status : Nat
  blockNumber : Nat
  gasUsed : Nat
deriving Repr, DecidableEq

/-- The behaviour of the external Web3 endpoint for one `BlockchainManager`
call: each external operation either returns a value or raises (an
`Except.error` carrying `str(e)`). -/
structure LedgerEnv where
  connCheck : Except String Bool
  balanceQuery : Except String ℚ
  nonceQuery : Except String Nat
  gasEstimate : Except String Nat
  gasPriceQuery : Except String Nat
  signOutcome : Txn → Except String Unit
  sendOutcome : Except String String
  receiptOutcome : Except String Receipt
  verifyCall : Except String (Bool × String × Nat)
  totalCall : Except String Nat

/-- The result dict of `store_certificate_on_blockchain`: either
`{'success': True, 'tx_hash', 'block_number', 'gas_used'}` or
`{'success': False, 'error', ['tx_hash']}`. -/
inductive StoreBcResult
  | success (txHash : String) (blockNumber : Nat) (gasUsed : Nat)
  | failure (error : String) (txHash : Option String)
deriving Repr, DecidableEq

/-- The minimum balance checked before submitting (`if balance < 0.001`);
the decimal 0.001 as the exact rational 1/1000. -/
def minBalanceEth : ℚ := Rat.divInt 1 1000

/-- Decimal rendering of a rational balance for the error message. -/
def ratRender (q : ℚ) : String := toString q.num ++ "/" ++ toString q.den

/-- `f'Insufficient balance: {balance} ETH. Need at least 0.001 ETH'` -/
def insufficientMsg (balance : ℚ) : String :=
  "Insufficient balance: " ++ ratRender balance ++ " ETH. Need at least 0.001 ETH"

/-- The `try:` body of `store_certificate_on_blockchain`: a raised exception
is an `Except.error`; the event list records the external calls attempted. -/
def store_certificate_body (env : LedgerEnv) :
    Except String StoreBcResult × List LedgerEvent :=
  match env.connCheck with
  | .error e => (.error e, [.checkConnection])
  | .ok false =>
    (.ok (.failure "Not connected to blockchain network" none), [.checkConnection])
  | .ok true =>
  match env.balanceQuery with
  | .error e => (.error e, [.checkConnection, .readBalance])
  | .ok balance =>
  if balance < minBalanceEth then
    (.ok (.failure (insufficientMsg balance) none), [.checkConnection, .readBalance])
  else
  match env.nonceQuery with
  | .error e => (.error e, [.checkConnection, .readBalance, .readNonce])
  | .ok nonce =>
  match env.gasEstimate with
  | .error e => (.error e, [.checkConnection, .readBalance, .readNonce, .estimateGas])
  | .ok gasEst =>
  match env.gasPriceQuery with
  | .error e =>
    (.error e, [.checkConnection, .readBalance, .readNonce, .estimateGas, .buildTxn])
  | .ok price =>
  let txn : Txn := ⟨nonce, gasEst + 10000, price⟩
  match env.signOutcome txn with
  | .error e =>
    (.error e, [.checkConnection, .readBalance, .readNonce, .estimateGas, .buildTxn,
                .signTxn])
  | .ok _ =>
  match env.sendOutcome with
  | .error e =>
    (.error e, [.checkConnection, .readBalance, .readNonce, .estimateGas, .buildTxn,
                .signTxn, .submitTxn])
  | .ok txHash =>
  match env.receiptOutcome with
  | .error e =>
    (.error e, [.checkConnection, .readBalance, .readNonce, .estimateGas, .buildTxn,
                .signTxn, .submitTxn, .waitConfirm])
  | .ok receipt =>
  if receipt.status == 1 then
    (.ok (.success txHash receipt.blockNumber receipt.gasUsed),
     [.checkConnection, .readBalance, .readNonce, .estimateGas, .buildTxn,
      .signTxn, .submitTxn, .waitConfirm])
  else
    (.ok (.failure "Transaction failed on blockchain" (some txHash)),
     [.checkConnection, .readBalance, .readNonce, .estimateGas, .buildTxn,
      .signTxn, .submitTxn, .waitConfirm])

/-- `store_certificate_on_blockchain`: the `try` body with its
`except Exception as e: return {'success': False, 'error': str(e)}` handler. -/
def store_certificate_on_blockchain (env : LedgerEnv) :
    StoreBcResult × List LedgerEvent :=
  match store_certificate_body env with
  | (.ok r, evs) => (r, evs)
  | (.error e, evs) => (.failure e none, evs)

/-- The result dict of `verify_certificate_on_blockchain`; fields that are
absent from the Python dict are `none`. -/
structure BcVerifyResult where
  certExists : Bool
  matric_number : Option String
  timestamp : Option Nat
  date_stored : Option String
  error : Option String
deriving Repr, DecidableEq

/-- Rendering of a Unix timestamp for `date_stored`
(`datetime.fromtimestamp(...).strftime(...)`); the calendar formatting is
abstracted as an injective rendering of the timestamp. -/
def format_timestamp (ts : Nat) : String := toString ts

/-- `verify_certificate_on_blockchain`: one read-only contract `call`;
an exception yields `{'exists': False, 'error': str(e)}`. -/
def verify_certificate_on_blockchain (env : LedgerEnv) :
    BcVerifyResult × List LedgerEvent :=
  match env.verifyCall with
  | .error e => (⟨false, none, none, none, some e⟩, [.verifyRead])
  | .ok (ex, m, t) =>
    if ex then
      (⟨true, some m, some t, some (format_timestamp t), none⟩, [.verifyRead])
    else
      (⟨false, none, none, none, none⟩, [.verifyRead])

/-- `get_total_certificates`: returns the contract count, or `0` on any
exception. -/
def get_total_certificates (env : LedgerEnv) : Nat :=
  match env.totalCall with
  | .ok n => n
  | .error _ => 0

/-! ## Record store and issuance flow (`app.py`) -/

/-- A `Student` row: identity fields, the fingerprint (`certificate_hash`,
unique), artifact path, and the anchor-status fields (`blockchain_tx_hash`,
`blockchain_block_number`, `on_blockchain`, defaulting to absent/false). -/
structure Student where
  full_name : String
  matric_number : String
  date_of_award : String
  year_of_graduation : String
  honors : String
  course_of_study : String
  certificate_hash : String
  certificate_path : String
  blockchain_tx_hash : Option String
  blockchain_block_number : Option Nat
  on_blockchain : Bool
deriving Repr, DecidableEq

/-- The six form fields posted to `upload_certificate_page`. -/
structure RequestForm where
  full_name : String
  matric_number : String
  year_of_graduation : String
  date_of_award : String
  honors : String
  course_of_study : String
deriving Repr, DecidableEq

/-- ASCII whitespace, the characters removed by Python's `.strip()`. -/
def isSpaceChar (c : Char) : Bool := c == ' ' || c == '\t' || c == '\n' || c == '\r'

/-- Python's `str.strip()`: remove leading and trailing whitespace. -/
def pyStrip (s : String) : String :=
  String.mk (((s.data.dropWhile isSpaceChar).reverse.dropWhile isSpaceChar).reverse)

/-- `.strip()` applied to every posted field. -/
def trimForm (req : RequestForm) : RequestForm :=
  ⟨pyStrip req.full_name, pyStrip req.matric_number, pyStrip req.year_of_graduation,
   pyStrip req.date_of_award, pyStrip req.honors, pyStrip req.course_of_study⟩

/-- The fingerprint the handler computes from the (stripped) form fields. -/
def form_hash (r : RequestForm) : String :=
  certificate_fingerprint r.full_name r.matric_number r.year_of_graduation
    r.date_of_award r.honors r.course_of_study

/-- The `new_student` row built by the handler before the first commit:
anchor-status fields at their defaults. -/
def form_record (r : RequestForm) : Student :=
  { full_name := r.full_name
    matric_number := r.matric_number
    date_of_award := r.date_of_award
    year_of_graduation := r.year_of_graduation
    honors := r.honors
    course_of_study := r.course_of_study
    certificate_hash := form_hash r
    certificate_path :=
      "certificates/" ++ (r.matric_number.replace "/" "_") ++ "_" ++
        ((form_hash r).take 8) ++ ".pdf"
    blockchain_tx_hash := none
    blockchain_block_number := none
    on_blockchain := false }

/-- IO-failure injection for the two `db.session.commit()` calls of one
issuance: `none` means the commit succeeds (absent constraint violations). -/
structure StoreEnv where
  insertIOError : Option String
  updateIOError : Option String
deriving Repr, DecidableEq

/-- The exception text of a SQLite uniqueness violation at commit time. -/
def uniqueViolationMsg : String :=
  "(sqlite3.IntegrityError) UNIQUE constraint failed: student"

/-- First `db.session.commit()`: enforces the store's uniqueness constraints
on `certificate_hash` and `matric_number`, then the injected IO outcome.
On success the new row is appended. -/
def insertResult (db : List Student) (s : Student) (senv : StoreEnv) :
    Except String (List Student) :=
  if db.any (fun r => r.certificate_hash == s.certificate_hash ||
                      r.matric_number == s.matric_number) then
    .error uniqueViolationMsg
  else
    match senv.insertIOError with
    | some e => .error e
    | none => .ok (db ++ [s])

/-- Second `db.session.commit()` (anchor-status update). On failure the
pending attribute updates are rolled back; on success the committed row is
the updated one. -/
def updateResult (db : List Student) (upd : Student) (senv : StoreEnv) :
    Except String (List Student) :=
  match senv.updateIOError with
  | some e => .error e
  | none => .ok (db ++ [upd])

/-- A `flash(...)` category. -/
inductive FlashCat
  | success
  | info
  | warning
  | danger
deriving Repr, DecidableEq

/-- One `flash(message, category)` call. -/
structure Flash where
  msg : String
  cat : FlashCat
deriving Repr, DecidableEq

/-- Where the POST handler redirects. -/
inductive PageOutcome
  | redirectUpload
  | redirectSuccess (hash_value : String)
deriving Repr, DecidableEq

/-- Everything observable from one POST to `upload_certificate_page`:
the redirect, the flashed messages in order, the resulting store contents,
and the ledger calls performed. -/
structure IssueResult where
  outcome : PageOutcome
  flashes : List Flash
  db : List Student
  ledgerEvents : List LedgerEvent
deriving Repr, DecidableEq

def allRequiredMsg : String := "Error: All fields are required!"

def dupMatricMsg (m : String) : String :=
  "Error: Certificate for Matric No. " ++ m ++ " already exists."

def dbErrorMsg (e : String) : String :=
  "Database Error: Could not save certificate data. " ++ e

def savedNoChainMsg : String :=
  "Certificate saved successfully! (Blockchain not configured)"

def storingChainMsg : String :=
  "Certificate saved to database. Storing on blockchain..."

def chainOkMsg (tx : String) : String :=
  "✅ Certificate stored on blockchain! Tx: " ++ tx.take 10 ++ "..."

def chainFailMsg (e : String) : String :=
  "⚠️ Blockchain storage failed: " ++ e ++ ". Certificate saved in database only."

/-- The POST branch of `upload_certificate_page`: strip fields, require all
nonempty, dedup pre-check by matric number, compute the fingerprint, build
the row, first commit, then (if a ledger client is configured) anchor on the
ledger and run the second commit, with the whole persistence/anchoring block
under one generic `except` that rolls back and flashes a database error. -/
def anyFieldEmpty (r : RequestForm) : Bool :=
  r.full_name == "" || r.matric_number == "" || r.year_of_graduation == "" ||
    r.date_of_award == "" || r.honors == "" || r.course_of_study == ""

def upload_certificate_post (req : RequestForm) (db : List Student)
    (senv : StoreEnv) (lenv : Option LedgerEnv) : IssueResult :=
  let r := trimForm req
  if anyFieldEmpty r then
    ⟨.redirectUpload, [⟨allRequiredMsg, .danger⟩], db, []⟩
  else if db.any (fun s => s.matric_number == r.matric_number) then
    ⟨.redirectUpload, [⟨dupMatricMsg r.matric_number, .danger⟩], db, []⟩
  else
    let certificate_hash := form_hash r
    let new_student := form_record r
    match insertResult db new_student senv with
    | .error e => ⟨.redirectUpload, [⟨dbErrorMsg e, .danger⟩], db, []⟩
    | .ok db1 =>
      match lenv with
      | none =>
        ⟨.redirectSuccess certificate_hash, [⟨savedNoChainMsg, .success⟩], db1, []⟩
      | some env =>
        match store_certificate_on_blockchain env with
        | (.success tx bn _, evs) =>
          let updated := { new_student with
            blockchain_tx_hash := some tx
            blockchain_block_number := some bn
            on_blockchain := true }
          match updateResult db updated senv with
          | .error e =>
            ⟨.redirectUpload, [⟨storingChainMsg, .info⟩, ⟨dbErrorMsg e, .danger⟩],
             db1, evs⟩
          | .ok db2 =>
            ⟨.redirectSuccess certificate_hash,
             [⟨storingChainMsg, .info⟩, ⟨chainOkMsg tx, .success⟩], db2, evs⟩
        | (.failure err _, evs) =>
          ⟨.redirectSuccess certificate_hash,
           [⟨storingChainMsg, .info⟩, ⟨chainFailMsg err, .warning⟩], db1, evs⟩

/-! ## Verification handler (`app.py`, `verify_certificate`) -/

/-- One lookup performed by the verification handler. -/
inductive AppEvent
  | storeLookup
  | ledgerVerify
deriving Repr, DecidableEq

/-- What the verification route renders. -/
inductive VerifyPage
  | formPage
  | resultsPage (student : Option Student) (blockchain_result : Option BcVerifyResult)
deriving Repr, DecidableEq

/-- `verify_certificate`: the submitted candidate (if any) is stripped; an
empty or missing candidate renders the query form; a 64-character candidate
is looked up in the store and (when configured) on the ledger; any other
length renders the results page with `student = None`,
`blockchain_result = None` and performs no lookup. -/
def verify_certificate (hash_input : Option String) (db : List Student)
    (lenv : Option LedgerEnv) : VerifyPage × List AppEvent :=
  match hash_input.map pyStrip with
  | none => (.formPage, [])
  | some hv =>
    if hv == "" then (.formPage, [])
    else if hv.length == 64 then
      let student := db.find? (fun s => s.certificate_hash == hv)
      match lenv with
      | some env =>
        (.resultsPage student (some (verify_certificate_on_blockchain env).1),
         [.storeLookup, .ledgerVerify])
      | none => (.resultsPage student none, [.storeLookup])
    else
      (.resultsPage none none, [])

/-! ## Helper lemmas -/

theorem getD_mem_of_mem {l : List Char} {d : Char} (hd : d ∈ l) (n : Nat) :
    l.getD n d ∈ l := by
  rcases h : l[n]? with _ | c
  · simp [List.getD, h, hd]
  · obtain ⟨hlt, rfl⟩ := List.getElem?_eq_some_iff.mp h
    simp [List.getD, h]

theorem hexChar_mem (n : Nat) : hexChar n ∈ "0123456789abcdef".data :=
  getD_mem_of_mem (by decide) n

theorem wordHex_chars (w : Nat) : ∀ c ∈ wordHex w, c ∈ "0123456789abcdef".data := by
  intro c hc
  simp only [wordHex, List.mem_cons, List.not_mem_nil, or_false] at hc
  rcases hc with h | h | h | h | h | h | h | h <;> exact h ▸ hexChar_mem _

theorem sha256_hex_chars (m : List Nat) :
    ∀ c ∈ (sha256_hex m).data, c ∈ "0123456789abcdef".data := by
  intro c hc
  simp only [sha256_hex, List.mem_append] at hc
  rcases hc with ((((((h | h) | h) | h) | h) | h) | h) | h <;> exact wordHex_chars _ c h

theorem sha256_hex_length (m : List Nat) : (sha256_hex m).length = 64 := by
  simp [sha256_hex, wordHex, String.length]

/-- The issuance handler's `data_string` is exactly the ordered
delimiter-joined concatenation of the six fields. -/
theorem data_string_eq_intercalate (a b c d e f : String) :
    data_string a b c d e f = String.intercalate "|" [a, b, c, d, e, f] := by
  simp [data_string, String.intercalate, String.intercalate.go, String.append_assoc]

/-! ## Claim C2 -/

/-- The fingerprint input as the spec words it (§4.1): the fields
concatenated in the fixed order name, identifier, graduation year,
award date, honors, program, joined with the stable delimiter. -/
def spec_ordered_concat (name identifier graduationYear awardDate honorsLevel
    program : String) : String :=
  String.intercalate "|" [name, identifier, graduationYear, awardDate,
    honorsLevel, program]

/-- C2: for every tuple of the six credential fields (empty strings
permitted), the fingerprint is deterministic (identical tuples give
identical output), equals the SHA-256 hex digest of the fields concatenated
in the spec's fixed order name, identifier, graduation year, award date,
honors, program with the stable delimiter, and is a 64-character hex
string. -/
theorem fingerprint_deterministic_sha256_of_ordered_fields
    (n i y d h p n2 i2 y2 d2 h2 p2 : String)
    (hsame : (n, i, y, d, h, p) = (n2, i2, y2, d2, h2, p2)) :
    certificate_fingerprint n i y d h p = certificate_fingerprint n2 i2 y2 d2 h2 p2
    ∧ certificate_fingerprint n i y d h p =
        sha256_hex (utf8Encode (spec_ordered_concat n i y d h p))
    ∧ (certificate_fingerprint n i y d h p).length = 64
    ∧ ∀ c ∈ (certificate_fingerprint n i y d h p).data, c ∈ "0123456789abcdef".data := by
  obtain ⟨rfl, rfl, rfl, rfl, rfl, rfl⟩ := Prod.mk.injEq .. ▸ hsame
  refine ⟨rfl, ?_, sha256_hex_length _, sha256_hex_chars _⟩
  · unfold certificate_fingerprint spec_ordered_concat
    rw [data_string_eq_intercalate]

/-- Witness for C2 at the spec's end-to-end sample tuple. -/
theorem fingerprint_deterministic_sha256_of_ordered_fields_witness :
    certificate_fingerprint "Jane Doe" "CS/2020/001" "2024" "2024-07-01"
        "Second Class Upper" "Computer Science"
      = certificate_fingerprint "Jane Doe" "CS/2020/001" "2024" "2024-07-01"
        "Second Class Upper" "Computer Science"
    ∧ certificate_fingerprint "Jane Doe" "CS/2020/001" "2024" "2024-07-01"
        "Second Class Upper" "Computer Science"
      = sha256_hex (utf8Encode (spec_ordered_concat "Jane Doe" "CS/2020/001" "2024"
          "2024-07-01" "Second Class Upper" "Computer Science"))
    ∧ (certificate_fingerprint "Jane Doe" "CS/2020/001" "2024" "2024-07-01"
        "Second Class Upper" "Computer Science").length = 64
    ∧ ∀ c ∈ (certificate_fingerprint "Jane Doe" "CS/2020/001" "2024" "2024-07-01"
        "Second Class Upper" "Computer Science").data, c ∈ "0123456789abcdef".data :=
  fingerprint_deterministic_sha256_of_ordered_fields
    "Jane Doe" "CS/2020/001" "2024" "2024-07-01" "Second Class Upper" "Computer Science"
    "Jane Doe" "CS/2020/001" "2024" "2024-07-01" "Second Class Upper" "Computer Science"
    rfl

/-! ## Sample ledger environments (used by witnesses) -/

/-- A ledger behaving normally: connected, funded, transaction confirmed. -/
def okLedgerEnv : LedgerEnv :=
  { connCheck := .ok true
    balanceQuery := .ok 1
    nonceQuery := .ok 3
    gasEstimate := .ok 21000
    gasPriceQuery := .ok 5
    signOutcome := fun _ => .ok ()
    sendOutcome := .ok "0xdeadbeef00abc"
    receiptOutcome := .ok ⟨1, 7, 23456⟩
    verifyCall := .ok (false, "", 0)
    totalCall := .ok 0 }

/-! ## Claim C5 -/

/-- C5: `store_certificate_on_blockchain` never raises: every exception the
ledger environment raises inside the body is converted into the
discriminated failure result carrying the exception's message, and the
returned result is always a discriminated success/failure value. -/
theorem store_on_blockchain_never_raises (env : LedgerEnv) :
    (∀ e evs, store_certificate_body env = (.error e, evs) →
        store_certificate_on_blockchain env = (.failure e none, evs))
    ∧ ((∃ tx bn gas, (store_certificate_on_blockchain env).1 =
          StoreBcResult.success tx bn gas)
        ∨ ∃ msg otx, (store_certificate_on_blockchain env).1 =
          StoreBcResult.failure msg otx) := by
  constructor
  · intro e evs hbody
    simp [store_certificate_on_blockchain, hbody]
  · cases hr : (store_certificate_on_blockchain env).1 with
    | success tx bn gas => exact Or.inl ⟨tx, bn, gas, rfl⟩
    | failure msg otx => exact Or.inr ⟨msg, otx, rfl⟩

/-- A ledger whose confirmation wait raises (e.g. timeout). -/
def timeoutLedgerEnv : LedgerEnv :=
  { okLedgerEnv with receiptOutcome := .error "timed out after 120 seconds" }

/-- Witness for C5: a timeout raised while waiting for the receipt comes
back as a structured failure carrying the exception text. -/
theorem store_on_blockchain_never_raises_witness :
    store_certificate_on_blockchain timeoutLedgerEnv =
      (.failure "timed out after 120 seconds" none,
       [.checkConnection, .readBalance, .readNonce, .estimateGas, .buildTxn,
        .signTxn, .submitTxn, .waitConfirm]) :=
  (store_on_blockchain_never_raises timeoutLedgerEnv).1
    "timed out after 120 seconds"
    [.checkConnection, .readBalance, .readNonce, .estimateGas, .buildTxn,
     .signTxn, .submitTxn, .waitConfirm] (by rfl)

/-! ## Claim C7 -/

/-- C7: the ledger verify operation performs only the one read-only call,
and reports "ledger unreachable" (an `error` field carrying the cause)
distinctly from "not found on ledger" (no `error` field): the two results
are never equal. -/
theorem verify_on_blockchain_distinguishes_unreachable
    (envDown envUp : LedgerEnv) (e m : String) (t : Nat)
    (hdown : envDown.verifyCall = .error e)
    (hup : envUp.verifyCall = .ok (false, m, t)) :
    (verify_certificate_on_blockchain envDown).1.error = some e
    ∧ (verify_certificate_on_blockchain envUp).1.error = none
    ∧ (verify_certificate_on_blockchain envDown).1 ≠
        (verify_certificate_on_blockchain envUp).1
    ∧ (verify_certificate_on_blockchain envDown).2 = [.verifyRead]
    ∧ (verify_certificate_on_blockchain envUp).2 = [.verifyRead] := by
  simp [verify_certificate_on_blockchain, hdown, hup]

/-- A ledger whose read-only verify call raises. -/
def unreachableLedgerEnv : LedgerEnv :=
  { okLedgerEnv with verifyCall := .error "Max retries exceeded with url" }

/-- Witness for C7: an unreachable ledger vs. a reachable ledger that
reports the fingerprint absent. -/
theorem verify_on_blockchain_distinguishes_unreachable_witness :
    (verify_certificate_on_blockchain unreachableLedgerEnv).1.error =
        some "Max retries exceeded with url"
    ∧ (verify_certificate_on_blockchain okLedgerEnv).1.error = none
    ∧ (verify_certificate_on_blockchain unreachableLedgerEnv).1 ≠
        (verify_certificate_on_blockchain okLedgerEnv).1
    ∧ (verify_certificate_on_blockchain unreachableLedgerEnv).2 = [.verifyRead]
    ∧ (verify_certificate_on_blockchain okLedgerEnv).2 = [.verifyRead] :=
  verify_on_blockchain_distinguishes_unreachable unreachableLedgerEnv okLedgerEnv
    "Max retries exceeded with url" "" 0 rfl rfl

/-! ## Claim C10 -/

/-- C10: `get_total_certificates` returns 0 whenever the underlying ledger
call raises, so its caller cannot distinguish an unreachable ledger from a
ledger holding zero anchors. -/
theorem total_certificates_zero_on_exception (envDown envZero : LedgerEnv)
    (e : String)
    (hdown : envDown.totalCall = .error e) (hzero : envZero.totalCall = .ok 0) :
    get_total_certificates envDown = 0
    ∧ get_total_certificates envDown = get_total_certificates envZero := by
  simp [get_total_certificates, hdown, hzero]

/-- A ledger whose total-count call raises. -/
def totalDownLedgerEnv : LedgerEnv :=
  { okLedgerEnv with totalCall := .error "connection refused" }

/-- Witness for C10: the unreachable ledger and the empty ledger both
yield a count of 0. -/
theorem total_certificates_zero_on_exception_witness :
    get_total_certificates totalDownLedgerEnv = 0
    ∧ get_total_certificates totalDownLedgerEnv =
        get_total_certificates okLedgerEnv :=
  total_certificates_zero_on_exception totalDownLedgerEnv okLedgerEnv
    "connection refused" rfl rfl

/-! ## Claim C8 -/

/-- C8: the anchor operation checks preconditions in order before spending
resources: not connected fails fast with the disconnected error (without
even reading the balance), and connected-but-underfunded fails with the
insufficient-balance error; in both cases no transaction is built, signed
or submitted. -/
theorem store_on_blockchain_fails_fast (env : LedgerEnv) :
    (env.connCheck = .ok false →
        store_certificate_on_blockchain env =
          (.failure "Not connected to blockchain network" none, [.checkConnection])
        ∧ LedgerEvent.buildTxn ∉ (store_certificate_on_blockchain env).2
        ∧ LedgerEvent.signTxn ∉ (store_certificate_on_blockchain env).2
        ∧ LedgerEvent.submitTxn ∉ (store_certificate_on_blockchain env).2
        ∧ LedgerEvent.readBalance ∉ (store_certificate_on_blockchain env).2)
    ∧ (∀ b : ℚ, env.connCheck = .ok true → env.balanceQuery = .ok b →
        b < minBalanceEth →
        store_certificate_on_blockchain env =
          (.failure (insufficientMsg b) none, [.checkConnection, .readBalance])
        ∧ LedgerEvent.buildTxn ∉ (store_certificate_on_blockchain env).2
        ∧ LedgerEvent.signTxn ∉ (store_certificate_on_blockchain env).2
        ∧ LedgerEvent.submitTxn ∉ (store_certificate_on_blockchain env).2) := by
  constructor
  · intro hconn
    have hres : store_certificate_on_blockchain env =
        (.failure "Not connected to blockchain network" none, [.checkConnection]) := by
      simp [store_certificate_on_blockchain, store_certificate_body, hconn]
    refine ⟨hres, ?_, ?_, ?_, ?_⟩ <;> simp [hres]
  · intro b hconn hbal hlt
    have hres : store_certificate_on_blockchain env =
        (.failure (insufficientMsg b) none, [.checkConnection, .readBalance]) := by
      simp [store_certificate_on_blockchain, store_certificate_body, hconn, hbal, hlt]
    refine ⟨hres, ?_, ?_, ?_⟩ <;> simp [hres]

/-- A disconnected ledger client. -/
def disconnectedLedgerEnv : LedgerEnv := { okLedgerEnv with connCheck := .ok false }

/-- An underfunded account: balance 1/2000 ETH (0.0005). -/
def poorLedgerEnv : LedgerEnv := { okLedgerEnv with balanceQuery := .ok (Rat.divInt 1 2000) }

/-- Witness for C8: the disconnected case and the underfunded case, each
with no transaction built, signed or submitted. -/
theorem store_on_blockchain_fails_fast_witness :
    (store_certificate_on_blockchain disconnectedLedgerEnv =
        (.failure "Not connected to blockchain network" none, [.checkConnection])
      ∧ LedgerEvent.buildTxn ∉ (store_certificate_on_blockchain disconnectedLedgerEnv).2
      ∧ LedgerEvent.signTxn ∉ (store_certificate_on_blockchain disconnectedLedgerEnv).2
      ∧ LedgerEvent.submitTxn ∉ (store_certificate_on_blockchain disconnectedLedgerEnv).2
      ∧ LedgerEvent.readBalance ∉ (store_certificate_on_blockchain disconnectedLedgerEnv).2)
    ∧ (store_certificate_on_blockchain poorLedgerEnv =
        (.failure (insufficientMsg (Rat.divInt 1 2000)) none,
         [.checkConnection, .readBalance])
      ∧ LedgerEvent.buildTxn ∉ (store_certificate_on_blockchain poorLedgerEnv).2
      ∧ LedgerEvent.signTxn ∉ (store_certificate_on_blockchain poorLedgerEnv).2
      ∧ LedgerEvent.submitTxn ∉ (store_certificate_on_blockchain poorLedgerEnv).2) :=
  ⟨(store_on_blockchain_fails_fast disconnectedLedgerEnv).1 rfl,
   (store_on_blockchain_fails_fast poorLedgerEnv).2 (Rat.divInt 1 2000) rfl rfl (by decide)⟩

/-! ## Claims C6 and C9: the issuance flow around the first commit -/

/-- Inversion: a successful first commit appends exactly the new row. -/
theorem insertResult_ok {db : List Student} {s : Student} {senv : StoreEnv}
    {db1 : List Student} (h : insertResult db s senv = .ok db1) :
    db1 = db ++ [s] := by
  unfold insertResult at h
  split at h
  · simp at h
  · rcases hio : senv.insertIOError with _ | e
    · rw [hio] at h
      simp at h
      exact h.symm
    · rw [hio] at h
      simp at h

/-- The spec's sample credential fields. -/
def sampleReq : RequestForm :=
  ⟨"Jane Doe", "CS/2020/001", "2024", "2024-07-01", "Second Class Upper",
   "Computer Science"⟩

/-- A store whose commits succeed. -/
def okSenv : StoreEnv := ⟨none, none⟩

/-- A store whose first commit raises an IO error. -/
def ioFailSenv : StoreEnv := ⟨some "disk I/O error", none⟩

/-- C6: within one issuance the ledger anchor call only ever happens after
the credential row has been committed: a failing persistence write aborts
the issuance with the storage-failure flash, leaves the store unchanged and
makes no ledger call; and conversely any issuance that performed a ledger
call had a successful first commit. -/
theorem issuance_never_anchors_before_persisting (req : RequestForm)
    (db : List Student) (senv : StoreEnv) (lenv : Option LedgerEnv)
    (hvalid : anyFieldEmpty (trimForm req) = false)
    (hdup : db.any (fun s => s.matric_number == (trimForm req).matric_number) = false) :
    (∀ e, insertResult db (form_record (trimForm req)) senv = .error e →
        upload_certificate_post req db senv lenv =
          ⟨.redirectUpload, [⟨dbErrorMsg e, .danger⟩], db, []⟩)
    ∧ ((upload_certificate_post req db senv lenv).ledgerEvents ≠ [] →
        insertResult db (form_record (trimForm req)) senv =
          .ok (db ++ [form_record (trimForm req)])) := by
  constructor
  · intro e hins
    simp [upload_certificate_post, hvalid, hdup, hins]
  · intro hne
    rcases hins : insertResult db (form_record (trimForm req)) senv with e | db1
    · exact absurd (by simp [upload_certificate_post, hvalid, hdup, hins]) hne
    · rw [insertResult_ok hins]

/-- Witness for C6: a first-commit IO failure aborts with the generic
database-error flash, an unchanged store and no ledger call. -/
theorem issuance_never_anchors_before_persisting_witness :
    insertResult [] (form_record (trimForm sampleReq)) ioFailSenv =
        .error "disk I/O error"
    ∧ upload_certificate_post sampleReq [] ioFailSenv (some okLedgerEnv) =
        ⟨.redirectUpload, [⟨dbErrorMsg "disk I/O error", .danger⟩], [], []⟩ :=
  ⟨rfl,
   (issuance_never_anchors_before_persisting sampleReq [] ioFailSenv
      (some okLedgerEnv) (by decide) rfl).1 "disk I/O error" rfl⟩

/-- C9: when the row is persisted and the ledger anchor call then fails,
the row stays in the store with its anchor-status fields untouched (no
transaction reference, no block reference, anchored flag false), the
ledger failure reason is flashed as a warning, and the issuance still
redirects to the success page. -/
theorem issuance_survives_anchor_failure (req : RequestForm)
    (db db1 : List Student) (senv : StoreEnv) (env : LedgerEnv)
    (err : String) (otx : Option String) (evs : List LedgerEvent)
    (hvalid : anyFieldEmpty (trimForm req) = false)
    (hdup : db.any (fun s => s.matric_number == (trimForm req).matric_number) = false)
    (hins : insertResult db (form_record (trimForm req)) senv = .ok db1)
    (hstore : store_certificate_on_blockchain env = (.failure err otx, evs)) :
    upload_certificate_post req db senv (some env) =
      ⟨.redirectSuccess (form_hash (trimForm req)),
       [⟨storingChainMsg, .info⟩, ⟨chainFailMsg err, .warning⟩],
       db ++ [form_record (trimForm req)], evs⟩
    ∧ (form_record (trimForm req)).blockchain_tx_hash = none
    ∧ (form_record (trimForm req)).blockchain_block_number = none
    ∧ (form_record (trimForm req)).on_blockchain = false := by
  have hdb1 := insertResult_ok hins
  subst hdb1
  refine ⟨?_, rfl, rfl, rfl⟩
  simp [upload_certificate_post, hvalid, hdup, hins, hstore]

/-- Witness for C9: a disconnected ledger after a successful first commit
still yields a success redirect, a warning carrying the ledger failure
reason, and the unanchored row in the store. -/
theorem issuance_survives_anchor_failure_witness :
    store_certificate_on_blockchain disconnectedLedgerEnv =
        (.failure "Not connected to blockchain network" none, [.checkConnection])
    ∧ upload_certificate_post sampleReq [] okSenv (some disconnectedLedgerEnv) =
        ⟨.redirectSuccess (form_hash (trimForm sampleReq)),
         [⟨storingChainMsg, .info⟩,
          ⟨chainFailMsg "Not connected to blockchain network", .warning⟩],
         [] ++ [form_record (trimForm sampleReq)], [.checkConnection]⟩ :=
  ⟨rfl,
   (issuance_survives_anchor_failure sampleReq [] ([] ++ [form_record (trimForm sampleReq)])
      okSenv disconnectedLedgerEnv "Not connected to blockchain network" none
      [.checkConnection] (by decide) rfl rfl rfl).1⟩

/-! ## Claim C1: the anchor-status write failure after a successful anchor -/

/-- A store whose first commit succeeds but whose second (anchor-status)
commit raises. -/
def updFailSenv : StoreEnv := ⟨none, some "disk I/O error"⟩

/-- C1 (amended): when the ledger anchor succeeds and the subsequent
anchor-status commit fails, the handler surfaces the same generic
database-error danger flash as an initial-persistence failure and redirects
back to the upload page — no distinct partial-anchor-persistence error
exists — while the row stays committed without its anchor fields. -/
theorem partial_anchor_persistence_reported_generically (req : RequestForm)
    (db db1 : List Student) (senv : StoreEnv) (env : LedgerEnv)
    (tx : String) (bn gas : Nat) (evs : List LedgerEvent) (e : String)
    (hvalid : anyFieldEmpty (trimForm req) = false)
    (hdup : db.any (fun s => s.matric_number == (trimForm req).matric_number) = false)
    (hins : insertResult db (form_record (trimForm req)) senv = .ok db1)
    (hstore : store_certificate_on_blockchain env = (.success tx bn gas, evs))
    (hupd : senv.updateIOError = some e) :
    upload_certificate_post req db senv (some env) =
      ⟨.redirectUpload, [⟨storingChainMsg, .info⟩, ⟨dbErrorMsg e, .danger⟩],
       db ++ [form_record (trimForm req)], evs⟩
    ∧ (form_record (trimForm req)).on_blockchain = false
    ∧ (form_record (trimForm req)).blockchain_tx_hash = none := by
  have hdb1 := insertResult_ok hins
  subst hdb1
  refine ⟨?_, rfl, rfl⟩
  simp [upload_certificate_post, hvalid, hdup, hins, hstore, updateResult, hupd]

/-- Counterexample for C1 as stated: with the anchor submission succeeding
and the second commit failing, the flashed error is literally the generic
database-error flash — identical to the one produced when the initial
persistence itself fails — so no distinct partial-anchor-persistence error
is surfaced. -/
theorem partial_anchor_persistence_counterexample :
    (store_certificate_on_blockchain okLedgerEnv).1 =
        .success "0xdeadbeef00abc" 7 23456
    ∧ (upload_certificate_post sampleReq [] updFailSenv (some okLedgerEnv)).flashes =
        [⟨storingChainMsg, .info⟩, ⟨dbErrorMsg "disk I/O error", .danger⟩]
    ∧ (upload_certificate_post sampleReq [] ioFailSenv (some okLedgerEnv)).flashes =
        [⟨dbErrorMsg "disk I/O error", .danger⟩]
    ∧ (upload_certificate_post sampleReq [] updFailSenv (some okLedgerEnv)).outcome =
        .redirectUpload := by
  refine ⟨rfl, ?_, ?_, ?_⟩ <;> decide

/-- Witness for C1 (amended) at the sample credential. -/
theorem partial_anchor_persistence_reported_generically_witness :
    upload_certificate_post sampleReq [] updFailSenv (some okLedgerEnv) =
      ⟨.redirectUpload,
       [⟨storingChainMsg, .info⟩, ⟨dbErrorMsg "disk I/O error", .danger⟩],
       [] ++ [form_record (trimForm sampleReq)],
       [.checkConnection, .readBalance, .readNonce, .estimateGas, .buildTxn,
        .signTxn, .submitTxn, .waitConfirm]⟩
    ∧ (form_record (trimForm sampleReq)).on_blockchain = false :=
  ⟨(partial_anchor_persistence_reported_generically sampleReq []
      ([] ++ [form_record (trimForm sampleReq)]) updFailSenv okLedgerEnv
      "0xdeadbeef00abc" 7 23456
      [.checkConnection, .readBalance, .readNonce, .estimateGas, .buildTxn,
       .signTxn, .submitTxn, .waitConfirm] "disk I/O error"
      (by decide) rfl rfl (by rfl) rfl).1,
   rfl⟩

/-! ## Claim C3: duplicate fingerprints -/

/-- C3 (amended): the dedup pre-check queries the store by matric number,
not by fingerprint. When the computed fingerprint already exists in the
store, the issuance aborts leaving the store unchanged, redirecting back to
the upload page and making no ledger call; when the existing row also has
the same matric number the abort carries the duplicate-credential flash,
while a pre-existing fingerprint under a different matric number passes the
pre-check and is rejected only by the store's uniqueness constraint at the
insert, surfacing the generic database-error flash instead. -/
theorem duplicate_fingerprint_rejected (req : RequestForm) (db : List Student)
    (senv : StoreEnv) (lenv : Option LedgerEnv)
    (hvalid : anyFieldEmpty (trimForm req) = false)
    (hfp : db.any (fun s => s.certificate_hash == form_hash (trimForm req)) = true) :
    (upload_certificate_post req db senv lenv).db = db
    ∧ (upload_certificate_post req db senv lenv).outcome = .redirectUpload
    ∧ (upload_certificate_post req db senv lenv).ledgerEvents = []
    ∧ (db.any (fun s => s.matric_number == (trimForm req).matric_number) = true →
        (upload_certificate_post req db senv lenv).flashes =
          [⟨dupMatricMsg (trimForm req).matric_number, .danger⟩])
    ∧ (db.any (fun s => s.matric_number == (trimForm req).matric_number) = false →
        (upload_certificate_post req db senv lenv).flashes =
          [⟨dbErrorMsg uniqueViolationMsg, .danger⟩]) := by
  cases hdup : db.any (fun s => s.matric_number == (trimForm req).matric_number) with
  | true =>
    have hres : upload_certificate_post req db senv lenv =
        ⟨.redirectUpload, [⟨dupMatricMsg (trimForm req).matric_number, .danger⟩],
         db, []⟩ := by
      simp [upload_certificate_post, hvalid, hdup]
    refine ⟨by simp [hres], by simp [hres], by simp [hres],
            fun _ => by simp [hres], fun hc => ?_⟩
    simp at hc
  | false =>
    have hany : db.any (fun r =>
        r.certificate_hash == (form_record (trimForm req)).certificate_hash ||
        r.matric_number == (form_record (trimForm req)).matric_number) = true := by
      rw [List.any_eq_true] at hfp ⊢
      obtain ⟨s, hs, hps⟩ := hfp
      exact ⟨s, hs, by simp [form_record] at hps ⊢; simp [hps]⟩
    have hins : insertResult db (form_record (trimForm req)) senv =
        .error uniqueViolationMsg := by
      simp [insertResult, hany]
    have hres : upload_certificate_post req db senv lenv =
        ⟨.redirectUpload, [⟨dbErrorMsg uniqueViolationMsg, .danger⟩], db, []⟩ := by
      simp [upload_certificate_post, hvalid, hdup, hins]
    refine ⟨by simp [hres], by simp [hres], by simp [hres], fun hc => ?_,
            fun _ => by simp [hres]⟩
    simp at hc

/-- Delimiter-injection request A: fields ("A|B", "C", ...). -/
def pipeReqA : RequestForm :=
  ⟨"A|B", "C", "2024", "2024-07-01", "First Class", "Computer Science"⟩

/-- Delimiter-injection request B: fields ("A", "B|C", ...) — a different
matric number with the identical delimiter-joined `data_string`. -/
def pipeReqB : RequestForm :=
  ⟨"A", "B|C", "2024", "2024-07-01", "First Class", "Computer Science"⟩

/-- Counterexample for C3 as stated: the store already holds request B's
row, whose fingerprint equals request A's computed fingerprint, yet issuing
request A passes the dedup pre-check (different matric number) and aborts
with the generic database-error flash of the uniqueness constraint — not
the duplicate-credential error. -/
theorem duplicate_fingerprint_counterexample :
    [form_record (trimForm pipeReqB)].any
        (fun s => s.certificate_hash == form_hash (trimForm pipeReqA)) = true
    ∧ upload_certificate_post pipeReqA [form_record (trimForm pipeReqB)] okSenv none =
        ⟨.redirectUpload, [⟨dbErrorMsg uniqueViolationMsg, .danger⟩],
         [form_record (trimForm pipeReqB)], []⟩
    ∧ dbErrorMsg uniqueViolationMsg ≠
        dupMatricMsg (trimForm pipeReqA).matric_number := by
  have htrimA : trimForm pipeReqA = pipeReqA := by decide
  have htrimB : trimForm pipeReqB = pipeReqB := by decide
  have hds : data_string "A" "B|C" "2024" "2024-07-01" "First Class" "Computer Science"
      = data_string "A|B" "C" "2024" "2024-07-01" "First Class" "Computer Science" := by
    decide
  have hfp : form_hash (trimForm pipeReqB) = form_hash (trimForm pipeReqA) := by
    rw [htrimA, htrimB]
    show certificate_fingerprint "A" "B|C" "2024" "2024-07-01" "First Class"
        "Computer Science"
      = certificate_fingerprint "A|B" "C" "2024" "2024-07-01" "First Class"
        "Computer Science"
    unfold certificate_fingerprint
    rw [hds]
  have hvalid : anyFieldEmpty (trimForm pipeReqA) = false := by decide
  have hdup : [form_record (trimForm pipeReqB)].any
      (fun s => s.matric_number == (trimForm pipeReqA).matric_number) = false := by
    simp only [List.any_cons, List.any_nil, Bool.or_false, form_record]
    rw [htrimA, htrimB]
    decide
  have hany : [form_record (trimForm pipeReqB)].any (fun r =>
      r.certificate_hash == (form_record (trimForm pipeReqA)).certificate_hash ||
      r.matric_number == (form_record (trimForm pipeReqA)).matric_number) = true := by
    simp only [List.any_cons, List.any_nil, Bool.or_false, form_record]
    rw [hfp]
    simp
  have hins : insertResult [form_record (trimForm pipeReqB)]
      (form_record (trimForm pipeReqA)) okSenv = .error uniqueViolationMsg := by
    simp [insertResult, hany]
  refine ⟨by simp [form_record, hfp], ?_, by decide⟩
  simp [upload_certificate_post, hvalid, hdup, hins]

/-- Witness for C3 (amended): a store already holding the identical
credential (same matric number, same fingerprint) rejects the issuance with
the duplicate-credential flash and is left unchanged. -/
theorem duplicate_fingerprint_rejected_witness :
    [form_record (trimForm sampleReq)].any
        (fun s => s.certificate_hash == form_hash (trimForm sampleReq)) = true
    ∧ (upload_certificate_post sampleReq [form_record (trimForm sampleReq)]
        okSenv none).db = [form_record (trimForm sampleReq)]
    ∧ (upload_certificate_post sampleReq [form_record (trimForm sampleReq)]
        okSenv none).outcome = .redirectUpload
    ∧ (upload_certificate_post sampleReq [form_record (trimForm sampleReq)]
        okSenv none).flashes =
        [⟨dupMatricMsg (trimForm sampleReq).matric_number, .danger⟩] := by
  have h := duplicate_fingerprint_rejected sampleReq
    [form_record (trimForm sampleReq)] okSenv none (by decide)
    (by simp [form_record])
  exact ⟨by simp [form_record], h.1, h.2.1, h.2.2.2.1 (by simp [form_record])⟩

/-! ## Claim C4: malformed verification candidates -/

/-- C4 (amended): a candidate that is nonempty after stripping but not 64
characters long triggers no RecordStore lookup and no ledger call, but the
handler renders the ordinary results page with no student and no ledger
result — there is no distinct malformed-query marker. -/
theorem malformed_verify_query_no_lookup (hv : String) (db : List Student)
    (lenv : Option LedgerEnv)
    (hne : (pyStrip hv == "") = false)
    (hlen : ((pyStrip hv).length == 64) = false) :
    verify_certificate (some hv) db lenv = (.resultsPage none none, []) := by
  simp [verify_certificate, hne, hlen]

/-- A syntactically valid 64-character candidate absent from every store. -/
def absent64 : String :=
  "aaaaaaaaaaaaaaaaaaaaaaaaaaaaaaaaaaaaaaaaaaaaaaaaaaaaaaaaaaaaaaaa"

/-- Counterexample for C4 as stated: with the ledger unconfigured, the page
rendered for the malformed candidate "abc" is identical to the page
rendered for a well-formed 64-character fingerprint that is simply not
found — the two results are not programmatically distinguishable. -/
theorem malformed_verify_query_counterexample :
    (pyStrip "abc").length ≠ 64
    ∧ (pyStrip absent64).length = 64
    ∧ (verify_certificate (some absent64) [] none).1 = .resultsPage none none
    ∧ (verify_certificate (some "abc") [] none).1 =
        (verify_certificate (some absent64) [] none).1 := by
  decide

/-- Witness for C4 (amended) at the malformed candidate "abc". -/
theorem malformed_verify_query_no_lookup_witness :
    verify_certificate (some "abc") [] (some okLedgerEnv) =
      (.resultsPage none none, []) :=
  malformed_verify_query_no_lookup "abc" [] (some okLedgerEnv)
    (by decide) (by decide)
